import Mathlib

/-!
Verification of the dell-storage-client data model and gateway operations.

The development shallowly embeds the Python sources of the repository:
`src/dell_storage_api/storage_object.py`, `volume.py`, `storage_center.py`,
and the earlier-draft module `src/scm_api/storage_object.py`.

Modelling conventions:
- decoded JSON values are `JVal` (a string, or a one-level object whose
  values are strings — the only shapes the code ever reads: records nest
  only through `parent.instanceId` and `volumeFolder.instanceId`);
- a Python dict holding a decoded record is `JDict`, an association list
  with unique keys; `dictGet` models `d.get(k, None)` (first match) and
  `dictIndex` models `d[k]`, whose `KeyError` on a missing key — an
  uncaught Python exception — is an `Except.error`;
- an uncaught Python exception anywhere is `Except.error`; a function that
  returns normally yields `Except.ok`;
- HTTP traffic: each remote method takes the transport's `Response` (only
  the status code is inspected by the code; bodies of failure responses
  are only printed) and returns, besides its Python return value, the list
  of `ApiCall`s it issued, in order;
- mutable `self` is explicit state passing: a method on `Volume` returns
  the updated `Volume`; a method that never assigns a field returns its
  receiver unchanged;
- `print` diagnostics are not modelled (they do not affect state).
-/

/-- JSON value as decoded from a DSM wire record: a string, or a one-level
object with string values (the only nesting the client reads is
`parent.instanceId` / `volumeFolder.instanceId`, per the wire contract). -/
inductive JVal where
  | s (v : String)
  | o (fields : List (String × String))
  deriving DecidableEq

/-- Decoded JSON record (Python dict), keys unique. -/
abbrev JDict := List (String × JVal)

/-- Python `d.get(key, None)`: first binding of `key`, if any. -/
def dictGet {β : Type} : List (String × β) → String → Option β
  | [], _ => none
  | (k, v) :: rest, key => if k = key then some v else dictGet rest key

/-- Python `d[key]`: like `dictGet` but a missing key raises `KeyError`. -/
def dictIndex {β : Type} (d : List (String × β)) (key : String) : Except String β :=
  match dictGet d key with
  | some v => .ok v
  | none => .error ("KeyError: " ++ key)

/-- Python `template % value`: substitute the single `%s` occurrence. -/
def substPercentS : List Char → String → List Char
  | [], _ => []
  | '%' :: 's' :: rest, v => v.data ++ rest
  | c :: rest, v => c :: substPercentS rest v

/-- String form of `template % value` (endpoint templates hold one `%s`). -/
def pyFormat1 (template : String) (v : String) : String :=
  String.mk (substPercentS template.data v)

/-- Python `str()` of a decoded JSON value, as consumed by `%`-formatting in
`build_url`. On the wire instance ids are strings; the object branch is a
fixed placeholder that no modelled execution reaches. -/
def JVal.pyStr : JVal → String
  | .s v => v
  | .o _ => "\x7b...\x7d"

/-- StorageObject.build_url: base url plus the endpoint template with `%s`
replaced by the object's instance id. Pure string composition. -/
def build_url (base_url : String) (endpoint_url : String) (instance_id : JVal) : String :=
  base_url ++ pyFormat1 endpoint_url instance_id.pyStr

/-- StorageObject (dell_storage_api/storage_object.py): standalone DSM
object. The requests session is opaque and carries no modelled state, so it
is omitted; the remaining constructor arguments are the fields. -/
structure StorageObject where
  base_url : String
  name : JVal
  instance_id : JVal
  deriving DecidableEq

/-- StorageObjectFolder: a StorageObject plus the optional parent id read
from the nested `parent` object (a string on the wire). -/
structure StorageObjectFolder where
  base_url : String
  name : JVal
  instance_id : JVal
  parent_id : Option String
  deriving DecidableEq

/-- StorageObjectFolder.is_root: `self.parent_id is None`. -/
def StorageObjectFolder.is_root (f : StorageObjectFolder) : Bool :=
  f.parent_id.isNone

/-- Server (dell_storage_api/server.py). -/
structure Server where
  base_url : String
  name : JVal
  instance_id : JVal
  type : JVal
  deriving DecidableEq

/-- Volume (dell_storage_api/volume.py). -/
structure Volume where
  base_url : String
  name : JVal
  instance_id : JVal
  parent_folder_id : JVal
  wwid : JVal
  deriving DecidableEq

/-- StorageCenter (dell_storage_api/storage_center.py). -/
structure StorageCenter where
  base_url : String
  name : JVal
  instance_id : JVal
  serial_num : JVal
  ip_addr : JVal
  deriving DecidableEq

/-- StorageObject.from_json: reads `source_dict['instanceId']` then
`source_dict['name']` (keyword-argument order of the source); a missing key
raises KeyError, which propagates. -/
def StorageObject.from_json (base_url : String) (source_dict : JDict) :
    Except String StorageObject :=
  match dictIndex source_dict "instanceId" with
  | .error e => .error e
  | .ok iid =>
    match dictIndex source_dict "name" with
    | .error e => .error e
    | .ok nm => .ok { base_url := base_url, name := nm, instance_id := iid }

/-- StorageObjectFolder.from_json: reads `instanceId`, `name`, then
`source_dict.get('parent', an empty dict).get('instanceId', None)`. A
missing `parent` key yields no parent (root); a present `parent` object
missing `instanceId` also yields None; a string-valued `parent` would raise
AttributeError in Python (`str` has no `get`). -/
def StorageObjectFolder.from_json (base_url : String) (source_dict : JDict) :
    Except String StorageObjectFolder :=
  match dictIndex source_dict "instanceId" with
  | .error e => .error e
  | .ok iid =>
    match dictIndex source_dict "name" with
    | .error e => .error e
    | .ok nm =>
      match dictGet source_dict "parent" with
      | none => .ok { base_url := base_url, name := nm, instance_id := iid, parent_id := none }
      | some (.o p) =>
          .ok { base_url := base_url, name := nm, instance_id := iid,
                parent_id := dictGet p "instanceId" }
      | some (.s _) => .error "AttributeError: str object has no attribute get"

/-- Server.from_json: reads `name`, `instanceId`, `objectType` in keyword
order; missing keys raise KeyError. -/
def Server.from_json (base_url : String) (source_dict : JDict) :
    Except String Server :=
  match dictIndex source_dict "name" with
  | .error e => .error e
  | .ok nm =>
    match dictIndex source_dict "instanceId" with
    | .error e => .error e
    | .ok iid =>
      match dictIndex source_dict "objectType" with
      | .error e => .error e
      | .ok ty => .ok { base_url := base_url, name := nm, instance_id := iid, type := ty }

/-- Volume.from_json: reads `name`, `instanceId`,
`source_dict['volumeFolder']['instanceId']`, `deviceId` in keyword order.
Missing keys raise KeyError; a string-valued `volumeFolder` would raise
TypeError when indexed with a string in Python. -/
def Volume.from_json (base_url : String) (source_dict : JDict) :
    Except String Volume :=
  match dictIndex source_dict "name" with
  | .error e => .error e
  | .ok nm =>
    match dictIndex source_dict "instanceId" with
    | .error e => .error e
    | .ok iid =>
      match dictIndex source_dict "volumeFolder" with
      | .error e => .error e
      | .ok (.s _) => .error "TypeError: string indices must be integers"
      | .ok (.o vf) =>
        match dictIndex vf "instanceId" with
        | .error e => .error e
        | .ok pfid =>
          match dictIndex source_dict "deviceId" with
          | .error e => .error e
          | .ok wwid =>
            .ok { base_url := base_url, name := nm, instance_id := iid,
                  parent_folder_id := JVal.s pfid, wwid := wwid }

/-- VolumeFolder.from_json (dell_storage_api/volume.py): identical record
layout to StorageObjectFolder.from_json but reads `name` before
`instanceId` (keyword order of that constructor call); VolumeFolder adds no
fields beyond StorageObjectFolder, so it is modelled by the same type. -/
def VolumeFolder.from_json (base_url : String) (source_dict : JDict) :
    Except String StorageObjectFolder :=
  match dictIndex source_dict "name" with
  | .error e => .error e
  | .ok nm =>
    match dictIndex source_dict "instanceId" with
    | .error e => .error e
    | .ok iid =>
      match dictGet source_dict "parent" with
      | none => .ok { base_url := base_url, name := nm, instance_id := iid, parent_id := none }
      | some (.o p) =>
          .ok { base_url := base_url, name := nm, instance_id := iid,
                parent_id := dictGet p "instanceId" }
      | some (.s _) => .error "AttributeError: str object has no attribute get"

/-- StorageObjectCollection.add: `self._store[obj.instance_id] = obj` on a
Python dict — if the key is present its value is replaced in place (the key
keeps its position in iteration order), otherwise the binding is appended.
The store is modelled as its list of values in iteration order; the key of
an element is `iid` of it, so the model is generic over the stored type the
way the Python method is generic over StorageObject subclasses. -/
def StorageObjectCollection.add {α : Type} (iid : α → JVal) : List α → α → List α
  | [], x => [x]
  | y :: ys, x =>
      if iid y = iid x then x :: ys else y :: StorageObjectCollection.add iid ys x

/-- StorageObjectCollection.find_by_instance_id: `self._store.get(id, None)`;
with unique keys this is the first element whose key matches. -/
def StorageObjectCollection.find_by_instance_id {α : Type} (iid : α → JVal)
    (store : List α) (instance_id : JVal) : Option α :=
  store.find? (fun x => decide (iid x = instance_id))

/-- StorageObjectCollection.find_by_name: builds a fresh collection by
`add`-ing every member whose `name` equals the argument, in iteration
order. -/
def StorageObjectCollection.find_by_name {α : Type} (iid nm : α → JVal)
    (store : List α) (name : JVal) : List α :=
  store.foldl
    (fun result x => if nm x = name then StorageObjectCollection.add iid result x else result)
    []

/-- StorageObjectCollection.all_objects: the list of stored values. -/
def StorageObjectCollection.all_objects {α : Type} (store : List α) : List α :=
  store

/-- StorageObjectFolderCollection.root_folder: loop over the members,
`break` at the first one with `is_root` (dell revision; the scm_api revision
returns from inside the loop — same function). Returns None only when the
loop finds no root. -/
def StorageObjectFolderCollection.root_folder (store : List StorageObjectFolder) :
    Option StorageObjectFolder :=
  store.find? (fun f => f.is_root)

/-- StorageObjectFolderCollection.find_by_parent_id
(dell_storage_api/storage_object.py): keep members whose `parent_id` equals
the argument (Python `None == parent_id` is False, so rootless members never
match a string argument). -/
def StorageObjectFolderCollection.find_by_parent_id (store : List StorageObjectFolder)
    (parent_id : String) : List StorageObjectFolder :=
  store.foldl
    (fun result f =>
      if f.parent_id = some parent_id then
        StorageObjectCollection.add (fun g => g.instance_id) result f
      else result)
    []

/-- ScmStorageObjectFolderCollection.find_by_parent_id
(scm_api/storage_object.py, earlier draft): the filter compares the member's
own `instance_id` — not its `parent_id` — with the argument. -/
def ScmStorageObjectFolderCollection.find_by_parent_id (store : List StorageObjectFolder)
    (parent_id : String) : List StorageObjectFolder :=
  store.foldl
    (fun result f =>
      if f.instance_id = JVal.s parent_id then
        StorageObjectCollection.add (fun g => g.instance_id) result f
      else result)
    []

/-- Response of one remote call as far as the client inspects it: the code
branches only on `status_code` (failure bodies are only printed). -/
structure Response where
  status : Nat
  deriving DecidableEq

/-- Remote request issued through the session, with method, full URL and
JSON payload where the code passes one. -/
inductive ApiCall where
  | get (url : String)
  | post (url : String) (payload : JDict)
  | postEmpty (url : String)
  | put (url : String) (payload : JDict)
  | delete (url : String)
  deriving DecidableEq

/-- Result of a mutating Volume method: the boolean the method returns, the
state of `self` after the call, and the requests issued. -/
structure VolumeOpResult where
  success : Bool
  state : Volume
  calls : List ApiCall
  deriving DecidableEq

/-- Endpoint template constants of Volume. -/
def Volume.ENDPOINT : String := "/StorageCenter/ScVolume"

/-- Endpoint template for one volume (modify/details/delete). -/
def Volume.VOLUME_ENDPOINT : String := "/StorageCenter/ScVolume/%s"

/-- Endpoint template for mapping a volume to a server. -/
def Volume.MAPPING_ENDPOINT : String := "/StorageCenter/ScVolume/%s/MapToServer"

/-- Endpoint template for unmapping a volume. -/
def Volume.UNMAPPING_ENDPOINT : String := "/StorageCenter/ScVolume/%s/Unmap"

/-- Endpoint template for recycling a volume. -/
def Volume.RECYCLE_ENDPOINT : String := "/StorageCenter/ScVolume/%s/Recycle"

/-- Endpoint template for expanding a volume to a size. -/
def Volume.EXPAND_TO_SIZE_ENDPOINT : String := "/StorageCenter/ScVolume/%s/ExpandToSize"

/-- Endpoint template for expanding a volume by an amount. -/
def Volume.EXPAND_ENDPOINT : String := "/StorageCenter/ScVolume/%s/Expand"

/-- Volume.mapping_url. -/
def Volume.mapping_url (v : Volume) : String :=
  build_url v.base_url Volume.MAPPING_ENDPOINT v.instance_id

/-- Volume.unmapping_url. -/
def Volume.unmapping_url (v : Volume) : String :=
  build_url v.base_url Volume.UNMAPPING_ENDPOINT v.instance_id

/-- Volume.recycle_url. -/
def Volume.recycle_url (v : Volume) : String :=
  build_url v.base_url Volume.RECYCLE_ENDPOINT v.instance_id

/-- Volume.delete_url. -/
def Volume.delete_url (v : Volume) : String :=
  build_url v.base_url Volume.VOLUME_ENDPOINT v.instance_id

/-- Volume.expand_url. -/
def Volume.expand_url (v : Volume) : String :=
  build_url v.base_url Volume.EXPAND_ENDPOINT v.instance_id

/-- Volume.expand_to_size_url. -/
def Volume.expand_to_size_url (v : Volume) : String :=
  build_url v.base_url Volume.EXPAND_TO_SIZE_ENDPOINT v.instance_id

/-- Volume.modify_url. -/
def Volume.modify_url (v : Volume) : String :=
  build_url v.base_url Volume.VOLUME_ENDPOINT v.instance_id

/-- Volume.map_to_server: one POST of `\x7b'Server': server_id\x7d` to the
mapping url; success iff status 200. The method assigns no field of self. -/
def Volume.map_to_server (v : Volume) (server_id : String) (resp : Response) :
    VolumeOpResult :=
  { success := resp.status == 200,
    state := v,
    calls := [ApiCall.post v.mapping_url [("Server", JVal.s server_id)]] }

/-- Volume.unmap: one POST with no payload; success iff status 204. No field
of self is assigned. -/
def Volume.unmap (v : Volume) (resp : Response) : VolumeOpResult :=
  { success := resp.status == 204,
    state := v,
    calls := [ApiCall.postEmpty v.unmapping_url] }

/-- Volume.expand: one POST of `ExpandAmount`; success iff status 200. No
field of self is assigned. -/
def Volume.expand (v : Volume) (size : String) (resp : Response) : VolumeOpResult :=
  { success := resp.status == 200,
    state := v,
    calls := [ApiCall.post v.expand_url [("ExpandAmount", JVal.s size)]] }

/-- Volume.expand_to_size: one POST of `NewSize`; success iff status 200. No
field of self is assigned. -/
def Volume.expand_to_size (v : Volume) (size : String) (resp : Response) : VolumeOpResult :=
  { success := resp.status == 200,
    state := v,
    calls := [ApiCall.post v.expand_to_size_url [("NewSize", JVal.s size)]] }

/-- Volume.recycle: one POST with no payload; success iff status 204. No
field of self is assigned. -/
def Volume.recycle (v : Volume) (resp : Response) : VolumeOpResult :=
  { success := resp.status == 204,
    state := v,
    calls := [ApiCall.postEmpty v.recycle_url] }

/-- Volume.delete: one DELETE; success iff status 200. No field of self is
assigned. -/
def Volume.delete (v : Volume) (resp : Response) : VolumeOpResult :=
  { success := resp.status == 200,
    state := v,
    calls := [ApiCall.delete v.delete_url] }

/-- Volume._modify_volume: one PUT of the payload to the modify url; returns
the success boolean and the issued call. -/
def Volume._modify_volume (v : Volume) (payload : JDict) (resp : Response) :
    Bool × List ApiCall :=
  (resp.status == 200, [ApiCall.put v.modify_url payload])

/-- Volume.rename: calls `_modify_volume` with `Name`; only on success does
it assign `self.name = new_name`. -/
def Volume.rename (v : Volume) (new_name : String) (resp : Response) : VolumeOpResult :=
  match Volume._modify_volume v [("Name", JVal.s new_name)] resp with
  | (true, calls) =>
      { success := true, state := { v with name := JVal.s new_name }, calls := calls }
  | (false, calls) => { success := false, state := v, calls := calls }

/-- Response of a list endpoint: on the wire the body is a JSON array of
records (the wire contract); on failure the body is ignored by the code. -/
structure ListResponse where
  status : Nat
  body : List JDict
  deriving DecidableEq

/-- Response of the volume-create endpoint: the body is one record. -/
structure CreateResponse where
  status : Nat
  body : JDict
  deriving DecidableEq

/-- Behaviour of the remote side for one StorageCenter scenario: the
response each endpoint returns. The methods under verification are
synchronous and deterministic in these responses (repeating a fetch yields
the same response). -/
structure Transport where
  volume_folder_list_resp : ListResponse
  volume_list_resp : ListResponse
  server_list_resp : ListResponse
  server_folder_list_resp : ListResponse
  create_volume_resp : CreateResponse
  deriving DecidableEq

/-- Endpoint template for the server folder list of a storage center. -/
def StorageCenter.SERVER_FOLDER_LIST_ENDPOINT : String :=
  "/StorageCenter/StorageCenter/%s/ServerFolderList"

/-- Endpoint template for the server list of a storage center. -/
def StorageCenter.SERVER_LIST_ENDPOINT : String :=
  "/StorageCenter/StorageCenter/%s/ServerList"

/-- Endpoint template for the volume folder list of a storage center. -/
def StorageCenter.VOLUME_FOLDER_LIST_ENDPOINT : String :=
  "/StorageCenter/StorageCenter/%s/VolumeFolderList"

/-- Endpoint template for the volume list of a storage center. -/
def StorageCenter.VOLUME_LIST_ENDPOINT : String :=
  "/StorageCenter/StorageCenter/%s/VolumeList"

/-- StorageCenter.server_folder_list_url. -/
def StorageCenter.server_folder_list_url (sc : StorageCenter) : String :=
  build_url sc.base_url StorageCenter.SERVER_FOLDER_LIST_ENDPOINT sc.instance_id

/-- StorageCenter.server_list_url. -/
def StorageCenter.server_list_url (sc : StorageCenter) : String :=
  build_url sc.base_url StorageCenter.SERVER_LIST_ENDPOINT sc.instance_id

/-- StorageCenter.volume_folder_list_url. -/
def StorageCenter.volume_folder_list_url (sc : StorageCenter) : String :=
  build_url sc.base_url StorageCenter.VOLUME_FOLDER_LIST_ENDPOINT sc.instance_id

/-- StorageCenter.volume_list_url. -/
def StorageCenter.volume_list_url (sc : StorageCenter) : String :=
  build_url sc.base_url StorageCenter.VOLUME_LIST_ENDPOINT sc.instance_id

/-- StorageCenter._fetch_object_list: one GET; on status 200 the parsed
body, otherwise the failure is printed and an empty dict is returned —
iterating it yields nothing, modelled as the empty list. -/
def StorageCenter._fetch_object_list (url : String) (resp : ListResponse) :
    List JDict × List ApiCall :=
  (if resp.status = 200 then resp.body else [], [ApiCall.get url])

/-- Loop body shared by the list wrappers: `for d in data:
result.add(T.from_json(d))`, where a decode error raised inside the loop
propagates. Instantiated with the decoder of the element type. -/
def buildCollection {α : Type} (iid : α → JVal)
    (decoder : JDict → Except String α) (result : List α) :
    List JDict → Except String (List α)
  | [] => .ok result
  | d :: rest =>
    match decoder d with
    | .error e => .error e
    | .ok x => buildCollection iid decoder (StorageObjectCollection.add iid result x) rest

/-- StorageCenter.volume_folder_list: fetch the raw list, then `add` each
record decoded by VolumeFolder.from_json into a fresh folder collection. -/
def StorageCenter.volume_folder_list (sc : StorageCenter) (tr : Transport) :
    Except String (List StorageObjectFolder) × List ApiCall :=
  match StorageCenter._fetch_object_list sc.volume_folder_list_url tr.volume_folder_list_resp with
  | (data, calls) =>
      (buildCollection (fun f => f.instance_id) (VolumeFolder.from_json sc.base_url) [] data,
       calls)

/-- StorageCenter.volume_list: fetch the raw list, then `add` each record
decoded by Volume.from_json into a fresh VolumeCollection. -/
def StorageCenter.volume_list (sc : StorageCenter) (tr : Transport) :
    Except String (List Volume) × List ApiCall :=
  match StorageCenter._fetch_object_list sc.volume_list_url tr.volume_list_resp with
  | (data, calls) =>
      (buildCollection (fun v => v.instance_id) (Volume.from_json sc.base_url) [] data,
       calls)

/-- StorageCenter.server_list: fetch the raw list, then `add` each record
decoded by Server.from_json into a fresh ServerCollection. -/
def StorageCenter.server_list (sc : StorageCenter) (tr : Transport) :
    Except String (List Server) × List ApiCall :=
  match StorageCenter._fetch_object_list sc.server_list_url tr.server_list_resp with
  | (data, calls) =>
      (buildCollection (fun s => s.instance_id) (Server.from_json sc.base_url) [] data,
       calls)

/-- StorageCenter.server_folder_list: the body is a single return of
`_fetch_object_list`, so the value produced is the raw parsed payload (a
dict in Python, the record list here) — although the source annotates the
return type as StorageObjectFolderCollection, no folder objects are ever
constructed. -/
def StorageCenter.server_folder_list (sc : StorageCenter) (tr : Transport) :
    List JDict × List ApiCall :=
  StorageCenter._fetch_object_list sc.server_folder_list_url tr.server_folder_list_resp

/-- StorageCenter._find_volume_folder_root: fetches the volume folder list,
returns None if it is empty (which is also what a failed fetch produces);
otherwise fetches the volume folder list a second time and looks up its
root folder, returning it, or None when the lookup fails. -/
def StorageCenter._find_volume_folder_root (sc : StorageCenter) (tr : Transport) :
    Except String (Option StorageObjectFolder) × List ApiCall :=
  match StorageCenter.volume_folder_list sc tr with
  | (.error e, c1) => (.error e, c1)
  | (.ok all_folders, c1) =>
    if all_folders.isEmpty then (.ok none, c1)
    else
      match StorageCenter.volume_folder_list sc tr with
      | (.error e, c2) => (.error e, c1 ++ c2)
      | (.ok folders, c2) =>
          (.ok (StorageObjectFolderCollection.root_folder folders), c1 ++ c2)

/-- Tail shared by both branches of StorageCenter.new_volume: POST
`Name`/`Size`/`StorageCenter`/`VolumeFolder` to the volume endpoint; on
status 201 decode the response body with Volume.from_json (a decode error
propagates), otherwise print and return None. -/
def StorageCenter.new_volume_post (sc : StorageCenter) (tr : Transport)
    (name size : String) (volume_folder_id : JVal) (prior_calls : List ApiCall) :
    Except String (Option Volume) × List ApiCall :=
  let url := sc.base_url ++ Volume.ENDPOINT
  let payload : JDict :=
    [("Name", JVal.s name), ("Size", JVal.s size),
     ("StorageCenter", sc.instance_id), ("VolumeFolder", volume_folder_id)]
  let calls := prior_calls ++ [ApiCall.post url payload]
  if tr.create_volume_resp.status = 201 then
    match Volume.from_json sc.base_url tr.create_volume_resp.body with
    | .error e => (.error e, calls)
    | .ok vol => (.ok (some vol), calls)
  else
    (.ok none, calls)

/-- StorageCenter.new_volume: with an empty (falsy) `volume_folder_id` the
root volume folder is resolved first through `_find_volume_folder_root` and
its instance id is used as the target folder; a failed resolution returns
None without issuing the create call. The source's later
`if volume_folder_id is None` guard can never fire for a string argument
and is not modelled. -/
def StorageCenter.new_volume (sc : StorageCenter) (tr : Transport)
    (name size volume_folder_id : String) :
    Except String (Option Volume) × List ApiCall :=
  if volume_folder_id = "" then
    match StorageCenter._find_volume_folder_root sc tr with
    | (.error e, calls) => (.error e, calls)
    | (.ok none, calls) => (.ok none, calls)
    | (.ok (some folder), calls) =>
        StorageCenter.new_volume_post sc tr name size folder.instance_id calls
  else
    StorageCenter.new_volume_post sc tr name size (JVal.s volume_folder_id) []

/-- Concrete folder A, a root (claim C1 input). -/
def c1_folder_a : StorageObjectFolder :=
  { base_url := "u", name := JVal.s "A", instance_id := JVal.s "1", parent_id := none }

/-- Concrete folder B, a second root (claim C1 input). -/
def c1_folder_b : StorageObjectFolder :=
  { base_url := "u", name := JVal.s "B", instance_id := JVal.s "2", parent_id := none }

/-- Degenerate collection with two roots (claim C1 input). -/
def c1_two_roots : List StorageObjectFolder := [c1_folder_a, c1_folder_b]

/-- Well-formed folder record with a nested parent (claim C2 input). -/
def c2_record : JDict :=
  [("instanceId", JVal.s "1"), ("name", JVal.s "F"),
   ("parent", JVal.o [("instanceId", "0")])]

/-- Concrete volume (claim C3 input). -/
def c3_volume : Volume :=
  { base_url := "https://dsm", name := JVal.s "OldName", instance_id := JVal.s "v1",
    parent_folder_id := JVal.s "f1", wwid := JVal.s "w1" }

/-- Root of a depth-3 folder tree (claim C4 input). -/
def c4_root : StorageObjectFolder :=
  { base_url := "u", name := JVal.s "Root", instance_id := JVal.s "r", parent_id := none }

/-- Middle node of the depth-3 tree, direct child of the root (claim C4). -/
def c4_mid : StorageObjectFolder :=
  { base_url := "u", name := JVal.s "Mid", instance_id := JVal.s "m", parent_id := some "r" }

/-- Leaf of the depth-3 tree, grandchild of the root (claim C4). -/
def c4_leaf : StorageObjectFolder :=
  { base_url := "u", name := JVal.s "Leaf", instance_id := JVal.s "l", parent_id := some "m" }

/-- Depth-3 folder tree root → mid → leaf (claim C4 input). -/
def c4_tree : List StorageObjectFolder := [c4_root, c4_mid, c4_leaf]

/-- Concrete storage center (claim C5 input). -/
def c5_sc : StorageCenter :=
  { base_url := "https://dsm", name := JVal.s "SC", instance_id := JVal.s "sc1",
    serial_num := JVal.s "SN", ip_addr := JVal.s "1.2.3.4" }

/-- Root volume folder record served by the list endpoint (claim C5 input). -/
def c5_root_rec : JDict := [("instanceId", JVal.s "vfroot"), ("name", JVal.s "Volumes")]

/-- Decoded form of `c5_root_rec` (claim C5 input). -/
def c5_root_folder : StorageObjectFolder :=
  { base_url := "https://dsm", name := JVal.s "Volumes", instance_id := JVal.s "vfroot",
    parent_id := none }

/-- Volume record served by the create endpoint (claim C5 input). -/
def c5_vol_rec : JDict :=
  [("name", JVal.s "vol"), ("instanceId", JVal.s "v9"),
   ("volumeFolder", JVal.o [("instanceId", "vfroot")]), ("deviceId", JVal.s "wwid9")]

/-- Transport for the happy default-folder create path (claim C5 input). -/
def c5_transport : Transport :=
  { volume_folder_list_resp := { status := 200, body := [c5_root_rec] },
    volume_list_resp := { status := 500, body := [] },
    server_list_resp := { status := 500, body := [] },
    server_folder_list_resp := { status := 500, body := [] },
    create_volume_resp := { status := 201, body := c5_vol_rec } }

/-- Concrete storage center (claim C6 input). -/
def c6_sc : StorageCenter :=
  { base_url := "https://dsm", name := JVal.s "SC6", instance_id := JVal.s "sc6",
    serial_num := JVal.s "SN6", ip_addr := JVal.s "1.2.3.5" }

/-- Server folder record served on the success side (claim C6 input). -/
def c6_sf_rec : JDict := [("instanceId", JVal.s "sf1"), ("name", JVal.s "SrvRoot")]

/-- Transport whose every response fails with status 500 (claim C6 input). -/
def c6_fail_transport : Transport :=
  { volume_folder_list_resp := { status := 500, body := [] },
    volume_list_resp := { status := 500, body := [] },
    server_list_resp := { status := 500, body := [] },
    server_folder_list_resp := { status := 500, body := [] },
    create_volume_resp := { status := 500, body := [] } }

/-- Transport whose server folder list succeeds (claim C6 input). -/
def c6_ok_transport : Transport :=
  { volume_folder_list_resp := { status := 500, body := [] },
    volume_list_resp := { status := 500, body := [] },
    server_list_resp := { status := 500, body := [] },
    server_folder_list_resp := { status := 200, body := [c6_sf_rec] },
    create_volume_resp := { status := 500, body := [] } }

/-- Entity kept only until overwritten (claim C8 input). -/
def c8_obj_old : StorageObject :=
  { base_url := "u", name := JVal.s "old", instance_id := JVal.s "42" }

/-- Entity that overwrites `c8_obj_old` under the same id (claim C8 input). -/
def c8_obj_new : StorageObject :=
  { base_url := "u", name := JVal.s "new", instance_id := JVal.s "42" }

/-- First entity named X (claim C9 input). -/
def c9_obj1 : StorageObject :=
  { base_url := "u", name := JVal.s "X", instance_id := JVal.s "1" }

/-- Entity named Y (claim C9 input). -/
def c9_obj2 : StorageObject :=
  { base_url := "u", name := JVal.s "Y", instance_id := JVal.s "2" }

/-- Second entity named X under a different id (claim C9 input). -/
def c9_obj3 : StorageObject :=
  { base_url := "u", name := JVal.s "X", instance_id := JVal.s "3" }

/-- Helper: adding an entity whose key is absent from the store appends it. -/
lemma add_eq_append {α : Type} (iid : α → JVal) (store : List α) (x : α)
    (h : ∀ y ∈ store, iid y ≠ iid x) :
    StorageObjectCollection.add iid store x = store ++ [x] := by
  induction store with
  | nil => rfl
  | cons y ys ih =>
    unfold StorageObjectCollection.add
    rw [if_neg (h y (List.mem_cons_self y ys))]
    exact congrArg (y :: ·) (ih (fun z hz => h z (List.mem_cons_of_mem y hz)))

/-- Helper: the accumulator loop `for x in store: if P x: result.add(x)`
run over a store with pairwise distinct keys, starting from an accumulator
whose keys are disjoint from the store's, appends exactly the matching
members in order. -/
lemma foldl_add_filter {α : Type} (iid : α → JVal) (P : α → Prop) [DecidablePred P] :
    ∀ store acc : List α, (store.map iid).Nodup →
      (∀ a ∈ acc, ∀ x ∈ store, iid a ≠ iid x) →
      store.foldl
          (fun result x => if P x then StorageObjectCollection.add iid result x else result) acc
        = acc ++ store.filter (fun x => decide (P x))
  | [], acc, _, _ => by simp
  | x :: xs, acc, hnodup, hdisj => by
    rw [List.foldl_cons]
    have hnodup' : (xs.map iid).Nodup := by
      rw [List.map_cons] at hnodup
      exact hnodup.of_cons
    have hhead : iid x ∉ xs.map iid := by
      rw [List.map_cons, List.nodup_cons] at hnodup
      exact hnodup.1
    by_cases hp : P x
    · rw [if_pos hp,
        add_eq_append iid acc x (fun a ha => hdisj a ha x (List.mem_cons_self x xs)),
        foldl_add_filter iid P xs (acc ++ [x]) hnodup' ?_]
      · simp [hp]
      · intro a ha y hy
        rcases List.mem_append.mp ha with h | h
        · exact hdisj a h y (List.mem_cons_of_mem x hy)
        · have hax : a = x := by simpa using h
          subst hax
          intro hEq
          exact hhead (hEq ▸ List.mem_map_of_mem iid hy)
    · rw [if_neg hp,
        foldl_add_filter iid P xs acc hnodup'
          (fun a ha y hy => hdisj a ha y (List.mem_cons_of_mem x hy))]
      simp [hp]

/-- Claim C1, counterexample: a FolderCollection holding two members with
`parent_id == None` does not signal "not found" — `root_folder` returns the
first root it meets, contradicting the claim's requirement that more than
one root yields the none sentinel. -/
theorem C1_two_roots_counterexample :
    c1_two_roots.countP (fun f => f.is_root) = 2 ∧
    StorageObjectFolderCollection.root_folder c1_two_roots = some c1_folder_a := by
  exact ⟨rfl, rfl⟩

/-- Claim C1, amended: `root_folder` returns the first member in iteration
order whose `parent_id` is absent — the head of the sub-list of roots. So
with exactly one root it returns that member, and it returns the none
sentinel exactly when no member has `parent_id == None`; with several roots
it returns the first rather than signalling "not found". -/
theorem C1_root_folder_first_root (store : List StorageObjectFolder) :
    StorageObjectFolderCollection.root_folder store
      = (store.filter (fun f => f.is_root)).head? := by
  induction store with
  | nil => rfl
  | cons f t ih =>
    cases h : f.is_root <;>
      simp [StorageObjectFolderCollection.root_folder, List.find?_cons, h,
        List.filter_cons, ih]

/-- Claim C4: on the depth-3 tree root → mid → leaf, the dell_storage_api
revision of `find_by_parent_id "r"` returns exactly the direct child (not
the root itself, not the grandchild), as the claim states; the scm_api
revision of the same method filters on the member's own `instance_id` and
returns the parent itself instead of its children — the code slip the claim
exposes. -/
theorem C4_find_by_parent_id_divergence :
    StorageObjectFolderCollection.find_by_parent_id c4_tree "r" = [c4_mid] ∧
    ScmStorageObjectFolderCollection.find_by_parent_id c4_tree "r" = [c4_root] ∧
    StorageObjectFolderCollection.find_by_parent_id c4_tree "m" = [c4_leaf] := by
  exact ⟨rfl, rfl, rfl⟩

/-- Claim C6: with every response failing (status 500), `server_list`,
`volume_list` and `volume_folder_list` each issue one GET and return an
empty collection of their declared type; `server_folder_list`, however,
returns the raw `_fetch_object_list` payload — the parsed JSON body (here
the record list; in Python the raw dict, `\x7b\x7d` on failure) — and never
constructs a StorageObjectFolderCollection, contradicting its own return
annotation: on the success side it hands back undecodeed records. -/
theorem C6_listing_fail_soft_eval :
    StorageCenter.server_list c6_sc c6_fail_transport
      = (.ok [], [ApiCall.get c6_sc.server_list_url]) ∧
    StorageCenter.volume_list c6_sc c6_fail_transport
      = (.ok [], [ApiCall.get c6_sc.volume_list_url]) ∧
    StorageCenter.volume_folder_list c6_sc c6_fail_transport
      = (.ok [], [ApiCall.get c6_sc.volume_folder_list_url]) ∧
    StorageCenter.server_folder_list c6_sc c6_fail_transport
      = ([], [ApiCall.get c6_sc.server_folder_list_url]) ∧
    StorageCenter.server_folder_list c6_sc c6_ok_transport
      = ([c6_sf_rec], [ApiCall.get c6_sc.server_folder_list_url]) := by
  exact ⟨rfl, rfl, rfl, rfl, rfl⟩

/-- Claim C7: immediately after `add e`, `find_by_instance_id (e.id)`
returns `e`, for every prior store content. -/
theorem C7_find_by_instance_id_after_add {α : Type} (iid : α → JVal)
    (store : List α) (e : α) :
    StorageObjectCollection.find_by_instance_id iid
        (StorageObjectCollection.add iid store e) (iid e) = some e := by
  induction store with
  | nil => simp [StorageObjectCollection.add, StorageObjectCollection.find_by_instance_id]
  | cons y ys ih =>
    unfold StorageObjectCollection.add
    by_cases h : iid y = iid e
    · simp [h, StorageObjectCollection.find_by_instance_id, List.find?_cons]
    · simpa [StorageObjectCollection.find_by_instance_id, List.find?_cons, h] using ih

/-- Claim C8: adding `e1` and then `e2` under the same instance id leaves
the store in exactly the state of adding `e2` alone — the last write wins
and the id is not double-counted. -/
theorem C8_add_last_write_wins {α : Type} (iid : α → JVal) (store : List α)
    (e1 e2 : α) (h : iid e1 = iid e2) :
    StorageObjectCollection.add iid (StorageObjectCollection.add iid store e1) e2
      = StorageObjectCollection.add iid store e2 := by
  have hcons : ∀ (y : α) (ys : List α) (x : α),
      StorageObjectCollection.add iid (y :: ys) x
        = if iid y = iid x then x :: ys else y :: StorageObjectCollection.add iid ys x :=
    fun _ _ _ => rfl
  induction store with
  | nil => simp [StorageObjectCollection.add, h]
  | cons y ys ih =>
    rw [hcons y ys e1, hcons y ys e2]
    by_cases hy : iid y = iid e1
    · rw [if_pos hy, if_pos (hy.trans h), hcons e1 ys e2, if_pos h]
    · rw [if_neg hy, if_neg (fun hc : iid y = iid e2 => hy (hc.trans h.symm)),
        hcons y (StorageObjectCollection.add iid ys e1) e2,
        if_neg (fun hc : iid y = iid e2 => hy (hc.trans h.symm))]
      exact congrArg (y :: ·) ih

/-- Claim C8, witness at a concrete pair of entities sharing instance id
42. -/
theorem C8_add_last_write_wins_witness :
    StorageObjectCollection.add (fun o : StorageObject => o.instance_id)
        (StorageObjectCollection.add (fun o : StorageObject => o.instance_id) [] c8_obj_old)
        c8_obj_new
      = StorageObjectCollection.add (fun o : StorageObject => o.instance_id) [] c8_obj_new :=
  C8_add_last_write_wins (fun o : StorageObject => o.instance_id) [] c8_obj_old c8_obj_new rfl

/-- Claim C9: on a store with pairwise distinct instance ids (the invariant
of the id-keyed dict), `find_by_name` returns exactly the members whose
name matches, in store order — empty when none match, all matches
otherwise, never capped at one. -/
theorem C9_find_by_name_matches {α : Type} (iid nm : α → JVal) (store : List α)
    (n : JVal) (h : (store.map iid).Nodup) :
    StorageObjectCollection.find_by_name iid nm store n
      = store.filter (fun x => decide (nm x = n)) := by
  have hgo := foldl_add_filter iid (fun x => nm x = n) store [] h (by simp)
  simpa [StorageObjectCollection.find_by_name] using hgo

/-- Claim C9, witness: two of three concrete entities are named X and both
are returned; searching a name nobody bears returns the empty collection. -/
theorem C9_find_by_name_matches_witness :
    StorageObjectCollection.find_by_name (fun o => o.instance_id) (fun o => o.name)
        [c9_obj1, c9_obj2, c9_obj3] (JVal.s "X") = [c9_obj1, c9_obj3] ∧
    StorageObjectCollection.find_by_name (fun o => o.instance_id) (fun o => o.name)
        [c9_obj1, c9_obj2, c9_obj3] (JVal.s "Z") = [] := by
  constructor
  · rw [C9_find_by_name_matches (fun o : StorageObject => o.instance_id) (fun o => o.name)
      [c9_obj1, c9_obj2, c9_obj3] (JVal.s "X") (by decide)]
    decide
  · rw [C9_find_by_name_matches (fun o : StorageObject => o.instance_id) (fun o => o.name)
      [c9_obj1, c9_obj2, c9_obj3] (JVal.s "Z") (by decide)]
    decide

/-- Claim C10: the remote operations map_to_server, unmap, expand,
expand_to_size, recycle and delete assign no local field — whatever status
the transport reports, the Volume state out is the Volume state in. Volume
holds exactly name, instance id, parent folder id and wwid (and the shared
context), no mapping-state field, so a second map_to_server issued right
after a first one posts the mapping request again unconditionally. -/
theorem C10_volume_ops_frame (v : Volume) (server_id size : String)
    (r1 r2 r3 r4 r5 r6 r7 : Response) :
    (Volume.map_to_server v server_id r1).state = v ∧
    (Volume.unmap v r2).state = v ∧
    (Volume.expand v size r3).state = v ∧
    (Volume.expand_to_size v size r4).state = v ∧
    (Volume.recycle v r5).state = v ∧
    (Volume.delete v r6).state = v ∧
    (Volume.map_to_server v server_id r1).calls
      = [ApiCall.post v.mapping_url [("Server", JVal.s server_id)]] ∧
    (Volume.map_to_server (Volume.map_to_server v server_id r1).state server_id r7).calls
      = [ApiCall.post v.mapping_url [("Server", JVal.s server_id)]] := by
  exact ⟨rfl, rfl, rfl, rfl, rfl, rfl, rfl, rfl⟩

/-- Claim C2, counterexample: a record missing a required key makes
from_json raise an uncaught KeyError that propagates to the caller
(`Except.error` in the model) — it is not reported-and-converted into a
sentinel "none" result as the claim states. -/
theorem C2_missing_key_counterexample :
    StorageObject.from_json "url" [] = .error ("KeyError: " ++ "instanceId") ∧
    StorageObjectFolder.from_json "url" [("instanceId", JVal.s "1")]
      = .error ("KeyError: " ++ "name") := by
  exact ⟨rfl, rfl⟩

/-- Claim C2, amended: from_json fails by raising an uncaught KeyError —
which propagates out of the decoder — exactly when a required key
(`instanceId` or `name`) is absent; with both present the base decoder
succeeds, and the folder variant sets `parent_id` to the nested parent
object's `instanceId` when the `parent` key is present and to no-parent
(root) when it is absent. -/
theorem C2_from_json_behaviour (bu : String) (d : JDict) :
    (dictGet d "instanceId" = none →
        StorageObject.from_json bu d = .error ("KeyError: " ++ "instanceId") ∧
        StorageObjectFolder.from_json bu d = .error ("KeyError: " ++ "instanceId")) ∧
    (∀ iid, dictGet d "instanceId" = some iid → dictGet d "name" = none →
        StorageObject.from_json bu d = .error ("KeyError: " ++ "name") ∧
        StorageObjectFolder.from_json bu d = .error ("KeyError: " ++ "name")) ∧
    (∀ iid nm, dictGet d "instanceId" = some iid → dictGet d "name" = some nm →
        StorageObject.from_json bu d
          = .ok { base_url := bu, name := nm, instance_id := iid } ∧
        (dictGet d "parent" = none →
            StorageObjectFolder.from_json bu d
              = .ok { base_url := bu, name := nm, instance_id := iid, parent_id := none }) ∧
        (∀ p, dictGet d "parent" = some (JVal.o p) →
            StorageObjectFolder.from_json bu d
              = .ok { base_url := bu, name := nm, instance_id := iid,
                      parent_id := dictGet p "instanceId" })) := by
  refine ⟨fun h => ?_, fun iid h1 h2 => ?_, fun iid nm h1 h2 => ⟨?_, fun hp => ?_, fun p hp => ?_⟩⟩
  · exact ⟨by simp [StorageObject.from_json, dictIndex, h],
           by simp [StorageObjectFolder.from_json, dictIndex, h]⟩
  · exact ⟨by simp [StorageObject.from_json, dictIndex, h1, h2],
           by simp [StorageObjectFolder.from_json, dictIndex, h1, h2]⟩
  · simp [StorageObject.from_json, dictIndex, h1, h2]
  · simp [StorageObjectFolder.from_json, dictIndex, h1, h2, hp]
  · simp [StorageObjectFolder.from_json, dictIndex, h1, h2, hp]

/-- Claim C2, witness: decoding a concrete well-formed folder record with a
nested parent yields the folder with `parent_id` taken from the parent's
`instanceId`. -/
theorem C2_from_json_behaviour_witness :
    StorageObjectFolder.from_json "url" c2_record
      = .ok { base_url := "url", name := JVal.s "F", instance_id := JVal.s "1",
              parent_id := some "0" } :=
  ((C2_from_json_behaviour "url" c2_record).2.2 (JVal.s "1") (JVal.s "F") rfl rfl).2.2
    [("instanceId", "0")] rfl

/-- Claim C3: rename issues exactly one remote call (a PUT of the new name
to the modify url); on status 200 it returns True and the one local change
is `name` becoming the new name; on any other status it returns False with
every local field untouched, and it never raises. -/
theorem C3_rename_contract (v : Volume) (new_name : String) (resp : Response) :
    (Volume.rename v new_name resp).calls
      = [ApiCall.put v.modify_url [("Name", JVal.s new_name)]] ∧
    (resp.status = 200 →
        Volume.rename v new_name resp
          = { success := true, state := { v with name := JVal.s new_name },
              calls := [ApiCall.put v.modify_url [("Name", JVal.s new_name)]] }) ∧
    (resp.status ≠ 200 →
        Volume.rename v new_name resp
          = { success := false, state := v,
              calls := [ApiCall.put v.modify_url [("Name", JVal.s new_name)]] }) := by
  refine ⟨?_, fun h => ?_, fun h => ?_⟩
  · by_cases h : resp.status = 200
    · simp [Volume.rename, Volume._modify_volume, h]
    · have hb : (resp.status == 200) = false := beq_eq_false_iff_ne.mpr h
      simp [Volume.rename, Volume._modify_volume, hb]
  · simp [Volume.rename, Volume._modify_volume, h]
  · have hb : (resp.status == 200) = false := beq_eq_false_iff_ne.mpr h
    simp [Volume.rename, Volume._modify_volume, hb]

/-- Claim C3, witness: against a 200 response the concrete volume is
renamed locally; against a 500 response it is returned verbatim with
success False. -/
theorem C3_rename_contract_witness :
    Volume.rename c3_volume "NewName" { status := 200 }
      = { success := true, state := { c3_volume with name := JVal.s "NewName" },
          calls := [ApiCall.put c3_volume.modify_url [("Name", JVal.s "NewName")]] } ∧
    Volume.rename c3_volume "NewName" { status := 500 }
      = { success := false, state := c3_volume,
          calls := [ApiCall.put c3_volume.modify_url [("Name", JVal.s "NewName")]] } :=
  ⟨(C3_rename_contract c3_volume "NewName" { status := 200 }).2.1 rfl,
   (C3_rename_contract c3_volume "NewName" { status := 500 }).2.2 (by decide)⟩

/-- Claim C5, counterexample: on the happy default-folder path the create
succeeds and returns the decoded Volume, but the root resolution costs two
remote fetches of the volume folder list, not the single extra fetch the
claim describes. -/
theorem C5_two_extra_fetches_counterexample :
    (StorageCenter.new_volume c5_sc c5_transport "vol" "10GB" "").2.countP
        (fun c => decide (c = ApiCall.get c5_sc.volume_folder_list_url)) = 2 ∧
    (StorageCenter.new_volume c5_sc c5_transport "vol" "10GB" "").1
      = .ok (some { base_url := "https://dsm", name := JVal.s "vol",
                    instance_id := JVal.s "v9", parent_folder_id := JVal.s "vfroot",
                    wwid := JVal.s "wwid9" }) := by
  exact ⟨by decide, rfl⟩

/-- Claim C5, amended: new_volume with the folder id omitted resolves the
root volume folder via two extra remote fetches (the folder list is fetched
once for the emptiness check and once more for the root lookup) and uses
the root's instance id as the volume's folder in the create payload; it
returns the none sentinel when root resolution fails (empty or failed
fetch, or no root found) without issuing the create call, and when the
create call is issued it returns none unless the status is 201, in which
case it returns the Volume decoded from the response body. -/
theorem C5_new_volume_contract (sc : StorageCenter) (tr : Transport)
    (name size : String) (folders : List StorageObjectFolder)
    (hlist : (StorageCenter.volume_folder_list sc tr).1 = .ok folders) :
    (folders = [] →
        StorageCenter.new_volume sc tr name size ""
          = (.ok none, [ApiCall.get sc.volume_folder_list_url])) ∧
    (folders ≠ [] → StorageObjectFolderCollection.root_folder folders = none →
        StorageCenter.new_volume sc tr name size ""
          = (.ok none,
             [ApiCall.get sc.volume_folder_list_url,
              ApiCall.get sc.volume_folder_list_url])) ∧
    (∀ root, folders ≠ [] →
        StorageObjectFolderCollection.root_folder folders = some root →
        StorageCenter.new_volume sc tr name size ""
          = (if tr.create_volume_resp.status = 201 then
               Except.map some (Volume.from_json sc.base_url tr.create_volume_resp.body)
             else .ok none,
             [ApiCall.get sc.volume_folder_list_url, ApiCall.get sc.volume_folder_list_url,
              ApiCall.post (sc.base_url ++ Volume.ENDPOINT)
                [("Name", JVal.s name), ("Size", JVal.s size),
                 ("StorageCenter", sc.instance_id),
                 ("VolumeFolder", root.instance_id)]])) := by
  have hpair : StorageCenter.volume_folder_list sc tr
      = (.ok folders, [ApiCall.get sc.volume_folder_list_url]) :=
    Prod.ext hlist rfl
  refine ⟨fun hempty => ?_, fun hne hroot => ?_, fun root hne hroot => ?_⟩
  · simp [StorageCenter.new_volume, StorageCenter._find_volume_folder_root, hpair, hempty]
  · simp [StorageCenter.new_volume, StorageCenter._find_volume_folder_root, hpair,
      List.isEmpty_iff, hne, hroot]
  · have hfind : StorageCenter._find_volume_folder_root sc tr
        = (.ok (some root),
           [ApiCall.get sc.volume_folder_list_url, ApiCall.get sc.volume_folder_list_url]) := by
      simp [StorageCenter._find_volume_folder_root, hpair, List.isEmpty_iff, hne, hroot]
    by_cases hc : tr.create_volume_resp.status = 201
    · cases hf : Volume.from_json sc.base_url tr.create_volume_resp.body <;>
        simp [StorageCenter.new_volume, hfind, StorageCenter.new_volume_post, hc, hf,
          Except.map]
    · simp [StorageCenter.new_volume, hfind, StorageCenter.new_volume_post, hc]

/-- Claim C5, witness: the contract applied to the concrete happy-path
scenario. -/
theorem C5_new_volume_contract_witness :
    StorageCenter.new_volume c5_sc c5_transport "vol" "10GB" ""
      = (if c5_transport.create_volume_resp.status = 201 then
           Except.map some
             (Volume.from_json c5_sc.base_url c5_transport.create_volume_resp.body)
         else .ok none,
         [ApiCall.get c5_sc.volume_folder_list_url, ApiCall.get c5_sc.volume_folder_list_url,
          ApiCall.post (c5_sc.base_url ++ Volume.ENDPOINT)
            [("Name", JVal.s "vol"), ("Size", JVal.s "10GB"),
             ("StorageCenter", c5_sc.instance_id),
             ("VolumeFolder", c5_root_folder.instance_id)]]) :=
  (C5_new_volume_contract c5_sc c5_transport "vol" "10GB" [c5_root_folder] rfl).2.2
    c5_root_folder (by decide) rfl
